import Mathlib

/-!
Shallow embedding of the strategy calculation engine of the Ferrari racing
planner (the Calculations class of the calculations module, together with the
circuit catalog and boost table of the configuration module, and the numeric
helpers of the utilities module).

Conventions of the embedding:
* JavaScript numbers are modelled as exact values: integer-valued inputs
  (lap counts, stint counts) as Int/Nat, configuration constants and
  user-entered point values as Rat, and the transcendental wear/fuel
  formulas over Real (Math.pow on a positive base is Real.rpow, Math.exp is
  Real.exp).
* Utils.formatNumber returns a fixed-decimal string that every consumer
  immediately compares or adds numerically, so it is modelled as the
  rounded numeric value (JavaScript toFixed rounds half away from zero
  towards plus infinity for the values in range, matching round).
* Functions that return an object literal are modelled with one structure
  per shape; fields that a branch omits (undefined in JavaScript) are
  Option-valued and set to none on that branch.  Purely presentational
  fields that no consumer reads back (performanceImpact,
  recommendedPitWindow, the circuitInfo echo of calculateTyreWear) are not
  modelled.
* Utils.handleSuccess / Utils.handleError results are the two constructors
  of CalcResult, carrying data plus message, respectively error message
  plus context string.
-/

/-- Discriminated result shape produced by Utils.handleSuccess (constructor
ok, with data and message) and Utils.handleError (constructor err, with
error message and context). -/
inductive CalcResult (α : Type) where
  | ok : α → String → CalcResult α
  | err : String → String → CalcResult α
deriving DecidableEq

/-- True exactly on the handleError shape (success: false). -/
def CalcResult.isErr {α : Type} : CalcResult α → Bool
  | .ok _ _ => false
  | .err _ _ => true

/-- One entry of the circuit catalog returned by Config.getCircuitsData. -/
structure Circuit where
  name : String
  length : ℚ
  laps : ℕ
  tyreWear : ℚ
  country : String
  timezone : String
  difficulty : String
deriving DecidableEq

/-- The static circuit catalog of Config.getCircuitsData, keyed by circuit
code. -/
def circuitsData : List (String × Circuit) :=
  [ ("ABU", ⟨"Abu Dhabi", 5.410, 25, 50, "AE", "Asia/Dubai", "Medium"⟩),
    ("AUS", ⟨"Australia", 5.301, 28, 40, "AU", "Australia/Melbourne", "Hard"⟩),
    ("AUT", ⟨"Austria", 4.044, 34, 60, "AT", "Europe/Vienna", "Medium"⟩),
    ("AZE", ⟨"Azerbaijan", 6.049, 23, 45, "AZ", "Asia/Baku", "Hard"⟩),
    ("BAH", ⟨"Bahrain", 4.726, 29, 60, "BH", "Asia/Bahrain", "Medium"⟩),
    ("BEL", ⟨"Belgium", 7.041, 21, 60, "BE", "Europe/Brussels", "Hard"⟩),
    ("BRA", ⟨"Brazil", 3.971, 34, 60, "BR", "America/Sao_Paulo", "Medium"⟩),
    ("CAN", ⟨"Canada", 4.341, 31, 45, "CA", "America/Montreal", "Medium"⟩),
    ("CHN", ⟨"China", 5.442, 27, 80, "CN", "Asia/Shanghai", "Hard"⟩),
    ("EUR", ⟨"Europe", 5.590, 25, 45, "DE", "Europe/Berlin", "Medium"⟩),
    ("FRA", ⟨"France", 5.881, 24, 80, "FR", "Europe/Paris", "Hard"⟩),
    ("GBR", ⟨"Great Britain", 5.751, 24, 65, "GB", "Europe/London", "Hard"⟩),
    ("GER", ⟨"Germany", 4.179, 33, 50, "DE", "Europe/Berlin", "Medium"⟩),
    ("HUN", ⟨"Hungary", 3.498, 39, 30, "HU", "Europe/Budapest", "Easy"⟩),
    ("ITA", ⟨"Italy", 5.401, 25, 35, "IT", "Europe/Rome", "Medium"⟩),
    ("JAP", ⟨"Japan", 5.058, 27, 70, "JP", "Asia/Tokyo", "Hard"⟩),
    ("MAL", ⟨"Malaysia", 5.536, 27, 85, "MY", "Asia/Kuala_Lumpur", "Hard"⟩),
    ("MEX", ⟨"Mexico", 4.308, 35, 60, "MX", "America/Mexico_City", "Medium"⟩),
    ("MON", ⟨"Monaco", 4.015, 29, 20, "MC", "Europe/Monaco", "Very Hard"⟩),
    ("RUS", ⟨"Russia", 6.077, 23, 50, "RU", "Europe/Moscow", "Medium"⟩),
    ("SIN", ⟨"Singapore", 5.049, 30, 45, "SG", "Asia/Singapore", "Hard"⟩),
    ("SPA", ⟨"Spain", 4.457, 31, 85, "ES", "Europe/Madrid", "Hard"⟩),
    ("TUR", ⟨"Turkey", 5.162, 27, 90, "TR", "Europe/Istanbul", "Very Hard"⟩),
    ("USA", ⟨"USA", 4.602, 30, 65, "US", "America/New_York", "Medium"⟩) ]

/-- Catalog access this.circuitsData[circuit]: some entry or none. -/
def getCircuit (code : String) : Option Circuit :=
  circuitsData.lookup code

/-- The boost level table Config.appConfig.boostLevels. -/
structure BoostLevel where
  multiplier : ℚ
  label : String
deriving DecidableEq

/-- The fixed boost multiplier table of the configuration module. -/
def boostLevels : List (String × BoostLevel) :=
  [ ("muy-alto", ⟨1.04, "Muy Alto (+4%)"⟩),
    ("alto", ⟨1.0161, "Alto (+1.61%)"⟩),
    ("neutral", ⟨1, "Neutral"⟩),
    ("bajo", ⟨0.988, "Bajo (-1.2%)"⟩),
    ("muy-bajo", ⟨0.9799, "Muy Bajo (-2.01%)"⟩) ]

/-- this.boostLevels[boost] || this.boostLevels[neutral]: the fallback is the
neutral table entry, whose value is ⟨1, Neutral⟩. -/
def lookupBoost (boost : String) : BoostLevel :=
  (boostLevels.lookup boost).getD ⟨1, "Neutral"⟩

/-- Utils.formatNumber: Number(num).toFixed(decimals), read back as the
numeric value it denotes (round half towards plus infinity at the given
number of decimal places). -/
noncomputable def formatNumber (x : ℝ) (decimals : ℕ) : ℝ :=
  (round (x * 10 ^ decimals) : ℤ) / 10 ^ decimals

/-- Base wear for the Medium compound: the step1..step8 pipeline of
calculateTyreWear, with Te = Math.max(1, tyrePoints) and the calibration
constant D0 = 50. -/
noncomputable def baseWearM (c : Circuit) (tyrePoints : ℚ) : ℝ :=
  let Te : ℝ := max 1 (tyrePoints : ℝ)
  let step1 := Te / 1.5
  let step2 := step1 ^ (-0.0778 : ℝ)
  let step3 := 1.43 * step2
  let step4 := 0.00364 * (c.tyreWear : ℝ) + 0.354
  let step5 := step3 * step4
  let step6 := (c.length : ℝ) * 1.384612
  let step7 := step5 * step6
  let step8 := step7 * (200 - 50)
  step8 / 10000 * 100

/-- JavaScript String.prototype.toUpperCase on the basic latin range: the
same function as String.toUpper of the standard library, stated by a
structural map over the character list so that it evaluates inside
proofs. -/
def toUpperString (s : String) : String :=
  String.mk (s.data.map Char.toUpper)

/-- The compoundMultipliers table of calculateTyreWear, looked up on the
upper-cased compound with default 1.0. -/
def compoundMultiplier (compound : String) : ℚ :=
  match toUpperString compound with
  | "SS" => 2.06
  | "S" => 0.642
  | "M" => 1.00
  | "H" => 0.375
  | _ => 1.0

/-- The unrounded remaining tyre life computed inside calculateTyreWear:
100 * exp(-1.18 * (Wc / 100) * N) with Wc the compound-adjusted base wear
and N = Math.max(1, laps). -/
noncomputable def tyreRemainingRaw (c : Circuit) (compound : String) (laps : ℤ)
    (tyrePoints : ℚ) : ℝ :=
  100 * Real.exp (-1.18 * (baseWearM c tyrePoints * (compoundMultiplier compound : ℝ) / 100)
    * max 1 (laps : ℝ))

/-- Result shape of calculateTyreWear.  The error branches return an object
holding only error, baseWear and remaining, so every other field is
Option-valued and none there; success is none on those branches because the
JavaScript object has no success field at all (undefined, falsy). -/
structure TyreWearResult where
  success : Option Bool
  error : Option String
  baseWear : ℝ
  baseWearWithCompound : Option ℝ
  remaining : ℝ
  totalWear : Option ℝ
  compound : Option String
  compoundMultiplier : Option ℚ
  lapsCompleted : Option ℤ

/-- Calculations.calculateTyreWear. -/
noncomputable def calculateTyreWear (circuit compound : String) (laps : ℤ)
    (tyrePoints : ℚ) : TyreWearResult :=
  match getCircuit circuit with
  | none =>
    { success := none, error := some "Circuito no encontrado", baseWear := 0,
      baseWearWithCompound := none, remaining := 100, totalWear := none,
      compound := none, compoundMultiplier := none, lapsCompleted := none }
  | some c =>
    if laps ≤ 0 ∨ tyrePoints ≤ 0 then
      { success := none, error := some "Valores inválidos", baseWear := 0,
        baseWearWithCompound := none, remaining := 100, totalWear := none,
        compound := none, compoundMultiplier := none, lapsCompleted := none }
    else
      let W_M := baseWearM c tyrePoints
      let multiplier := compoundMultiplier compound
      let Wc := W_M * (multiplier : ℝ)
      let remaining := tyreRemainingRaw c compound laps tyrePoints
      let totalWear := 100 - remaining
      { success := some true, error := none,
        baseWear := formatNumber W_M 3,
        baseWearWithCompound := some (formatNumber Wc 3),
        remaining := formatNumber remaining 2,
        totalWear := some (formatNumber totalWear 2),
        compound := some (toUpperString compound),
        compoundMultiplier := some multiplier,
        lapsCompleted := some (max 1 laps) }

/-- The fuel quantity computed by calculateFuel before formatting:
98.45644 * Math.max(1, fuelPoints) ^ (-0.088463) * totalDistance / 139.771
with totalDistance = length * laps. -/
noncomputable def raceFuelRaw (c : Circuit) (fuelPoints : ℚ) : ℝ :=
  98.45644 * (max 1 (fuelPoints : ℝ)) ^ (-0.088463 : ℝ)
    * ((c.length : ℝ) * (c.laps : ℝ)) / 139.771

/-- fuelPerLap of calculateFuel before formatting: fuel / laps. -/
noncomputable def raceFuelPerLapRaw (c : Circuit) (fuelPoints : ℚ) : ℝ :=
  raceFuelRaw c fuelPoints / (c.laps : ℝ)

/-- The per-lap fuel computed by calculateStintFuel before boost and
formatting: (98.45644 * Math.max(1, fuelPoints) ^ (-0.088463) * length)
/ 139.771. -/
noncomputable def stintFuelPerLapRaw (c : Circuit) (fuelPoints : ℚ) : ℝ :=
  98.45644 * (max 1 (fuelPoints : ℝ)) ^ (-0.088463 : ℝ) * (c.length : ℝ) / 139.771

/-- Result of calculateFuelEfficiency. -/
structure FuelEfficiency where
  rating : String
  color : String
  fuelPerKm : ℝ

/-- Calculations.calculateFuelEfficiency. -/
noncomputable def calculateFuelEfficiency (fuelPerLap circuitLength : ℝ) :
    FuelEfficiency :=
  let fuelPerKm := fuelPerLap / circuitLength
  if fuelPerKm < 0.5 then ⟨"Excelente", "green", formatNumber fuelPerKm 3⟩
  else if fuelPerKm < 0.7 then ⟨"Buena", "lime", formatNumber fuelPerKm 3⟩
  else if fuelPerKm < 1.0 then ⟨"Media", "yellow", formatNumber fuelPerKm 3⟩
  else if fuelPerKm < 1.3 then ⟨"Pobre", "orange", formatNumber fuelPerKm 3⟩
  else ⟨"Muy Pobre", "red", formatNumber fuelPerKm 3⟩

/-- The circuitInfo echo attached to fuel results. -/
structure CircuitSummary where
  name : String
  laps : ℕ
  length : ℚ
deriving DecidableEq

/-- Success payload of calculateFuel. -/
structure FuelData where
  totalFuel : ℝ
  fuelPerLap : ℝ
  totalDistance : ℝ
  efficiency : FuelEfficiency
  circuitInfo : CircuitSummary

/-- Calculations.calculateFuel. -/
noncomputable def calculateFuel (circuit : String) (fuelPoints : ℚ) :
    CalcResult FuelData :=
  match getCircuit circuit with
  | none => .err "Circuito no encontrado" "Fuel calculation"
  | some c =>
    if fuelPoints ≤ 0 then .err "Puntos de combustible inválidos" "Fuel calculation"
    else
      let totalDistance : ℝ := (c.length : ℝ) * (c.laps : ℝ)
      let fuel := raceFuelRaw c fuelPoints
      let fuelPerLap := fuel / (c.laps : ℝ)
      let efficiency := calculateFuelEfficiency fuelPerLap (c.length : ℝ)
      .ok { totalFuel := formatNumber fuel 2,
            fuelPerLap := formatNumber fuelPerLap 3,
            totalDistance := formatNumber totalDistance 2,
            efficiency := efficiency,
            circuitInfo := ⟨c.name, c.laps, c.length⟩ } "Operación exitosa"

/-- The timeImpacts table of calculateBoostTimeImpact. -/
def timeImpacts : List (String × ℚ) :=
  [ ("muy-alto", -0.8), ("alto", -0.3), ("neutral", 0),
    ("bajo", 0.4), ("muy-bajo", 0.9) ]

/-- timeImpacts[boost] || 0. -/
def boostTimeImpactPerLap (boost : String) : ℚ :=
  (timeImpacts.lookup boost).getD 0

/-- Result of calculateBoostTimeImpact. -/
structure TimeImpact where
  perLap : ℝ
  total : ℝ
  direction : String

/-- Calculations.calculateBoostTimeImpact. -/
noncomputable def calculateBoostTimeImpact (boost : String) (laps : ℤ) :
    TimeImpact :=
  let impactPerLap := boostTimeImpactPerLap boost
  let totalImpact := impactPerLap * (laps : ℚ)
  { perLap := formatNumber (impactPerLap : ℝ) 1,
    total := formatNumber (totalImpact : ℝ) 1,
    direction :=
      if impactPerLap < 0 then "faster"
      else if impactPerLap > 0 then "slower"
      else "neutral" }

/-- The boostInfo echo of calculateStintFuel: the raw boost key as given by
the caller, plus multiplier and label of the resolved table entry. -/
structure BoostInfo where
  level : String
  multiplier : ℚ
  label : String
deriving DecidableEq

/-- Success payload of calculateStintFuel. -/
structure StintFuelData where
  stintFuel : ℝ
  fuelPerLap : ℝ
  baseFuelPerLap : ℝ
  boostInfo : BoostInfo
  fuelSaving : ℝ
  timeImpact : TimeImpact
  laps : ℤ

/-- Calculations.calculateStintFuel. -/
noncomputable def calculateStintFuel (circuit : String) (fuelPoints : ℚ)
    (laps : ℤ) (boost : String) : CalcResult StintFuelData :=
  match getCircuit circuit with
  | none => .err "Circuito no encontrado" "Stint fuel calculation"
  | some c =>
    if fuelPoints ≤ 0 ∨ laps ≤ 0 then .err "Valores inválidos" "Stint fuel calculation"
    else
      let fuelPerLap := stintFuelPerLapRaw c fuelPoints
      let boostInfo := lookupBoost boost
      let stintFuel := fuelPerLap * (laps : ℝ) * (boostInfo.multiplier : ℝ)
      let fuelSaving := (1 - (boostInfo.multiplier : ℝ)) * fuelPerLap * (laps : ℝ)
      .ok { stintFuel := formatNumber stintFuel 2,
            fuelPerLap := formatNumber (fuelPerLap * (boostInfo.multiplier : ℝ)) 3,
            baseFuelPerLap := formatNumber fuelPerLap 3,
            boostInfo := ⟨boost, boostInfo.multiplier, boostInfo.label⟩,
            fuelSaving := formatNumber |fuelSaving| 2,
            timeImpact := calculateBoostTimeImpact boost laps,
            laps := laps } "Operación exitosa"

/-- One stint of a strategy: ordinal, compound, lap count, boost key. -/
structure Stint where
  stint : ℤ
  compound : String
  laps : ℤ
  boost : String
deriving DecidableEq

/-- A strategy object as built by createBalancedStrategy: the stint list
plus the derived totalFuel and description fields. -/
structure Strategy where
  stints : List Stint
  totalFuel : ℝ
  description : String

/-- Calculations.validateStrategy: the stint laps sum to totalLaps and every
stint has a positive lap count. -/
def validateStrategy (strategy : Strategy) (totalLaps : ℤ) : Bool :=
  (strategy.stints.foldl (fun sum stint => sum + stint.laps) 0 == totalLaps)
    && strategy.stints.all (fun stint => decide (0 < stint.laps))

/-- The stint-building loop of createBalancedStrategy.  The loop counter i
runs from 0 while i < numStints; here the remaining iteration count
numStints - i drives the recursion and i is carried along, so that the
last-stint test stays literally i = numStints - 1.  Math.floor of the
division of the nonnegative remaining laps by the positive stint count is
Int.ediv. -/
def buildStintsAux (numStints : ℕ) (primaryCompound : String) :
    ℕ → ℕ → ℤ → List Stint
  | 0, _, _ => []
  | k + 1, i, remainingLaps =>
    let isLastStint := i == numStints - 1
    let stintLaps :=
      if isLastStint then remainingLaps
      else Int.ediv remainingLaps ((numStints : ℤ) - (i : ℤ))
    let compound :=
      if numStints > 1 then
        if i == 0 then "S"
        else if i == numStints - 1 then "H"
        else primaryCompound
      else primaryCompound
    ⟨(i : ℤ) + 1, compound, stintLaps, "neutral"⟩ ::
      buildStintsAux numStints primaryCompound k (i + 1) (remainingLaps - stintLaps)

/-- The full stint list built by createBalancedStrategy for numStints stints
over totalLaps laps. -/
def buildStints (numStints : ℕ) (primaryCompound : String) (totalLaps : ℤ) :
    List Stint :=
  buildStintsAux numStints primaryCompound numStints 0 totalLaps

/-- Calculations.generateStrategyDescription. -/
def generateStrategyDescription (stints : List Stint) : String :=
  if stints.length == 1 then "Estrategia sin paradas"
  else
    let compounds := String.intercalate " → " (stints.map (fun s => s.compound))
    let laps := String.intercalate " + " (stints.map (fun s => toString s.laps ++ "L"))
    toString stints.length ++ " paradas: " ++ compounds ++ " (" ++ laps ++ ")"

/-- Calculations.calculateTotalStrategyFuel: left fold adding each stint
fuel when the stint fuel call succeeds (parseFloat of the formatted stint
fuel reads back the rounded value) and 0 otherwise. -/
noncomputable def calculateTotalStrategyFuel (circuit : String)
    (stints : List Stint) (fuelPoints : ℚ) : ℝ :=
  stints.foldl
    (fun total stint =>
      total +
        match calculateStintFuel circuit fuelPoints stint.laps stint.boost with
        | .ok d _ => d.stintFuel
        | .err _ _ => 0)
    0

/-- Calculations.createBalancedStrategy.  The tyrePoints parameter is
accepted and ignored, as in the source. -/
noncomputable def createBalancedStrategy (circuit : String) (totalLaps : ℤ)
    (numStints : ℕ) (primaryCompound : String) (tyrePoints fuelPoints : ℚ) :
    Strategy :=
  let stints := buildStints numStints primaryCompound totalLaps
  { stints := stints,
    totalFuel := calculateTotalStrategyFuel circuit stints fuelPoints,
    description := generateStrategyDescription stints }

/-- Calculations.generateStrategies: stint counts 1..maxStints, each kept
only when the even average stint length lies in [minLength, maxLength]; one
candidate per preferred compound, kept only when validateStrategy accepts
it. -/
noncomputable def generateStrategies (circuit : String) (totalLaps : ℤ)
    (tyrePoints fuelPoints : ℚ) (maxStints : ℕ) (compounds : List String)
    (minLength maxLength : ℤ) : List Strategy :=
  (List.range' 1 maxStints).flatMap fun numStints =>
    let avgStintLength := Int.ediv totalLaps (numStints : ℤ)
    if minLength ≤ avgStintLength ∧ avgStintLength ≤ maxLength then
      compounds.filterMap fun compound =>
        let strategy :=
          createBalancedStrategy circuit totalLaps numStints compound tyrePoints fuelPoints
        if validateStrategy strategy totalLaps then some strategy else none
    else []

/-- The per-stint score adjustment of the evaluateStrategy forEach body:
tyre wear is requested for the stint at 100 tyre points, degraded tyres are
penalised, barely used tyres are penalised slightly, and a balanced stint
length earns a bonus. -/
noncomputable def stintScoreDelta (circuitKey : String) (stint : Stint) : ℤ :=
  let tyreWear := calculateTyreWear circuitKey stint.compound stint.laps 100
  (if tyreWear.remaining < 20 then -30
   else if tyreWear.remaining < 40 then -15
   else if tyreWear.remaining > 80 then -5
   else 0)
  + (if 8 ≤ stint.laps ∧ stint.laps ≤ 25 then 5 else 0)

/-- Calculations.evaluateStrategy.  Note the tyre wear lookup key: the
source passes circuitInfo.name, the display name of the circuit object, not
its catalog code. -/
noncomputable def evaluateStrategy (strategy : Strategy) (circuitInfo : Circuit) : ℤ :=
  max 0
    ((100 - ((strategy.stints.length : ℤ) - 1) * 15)
      + (strategy.stints.map (stintScoreDelta circuitInfo.name)).sum)

/-- Evaluator scoring as the specification words it, for comparison with
evaluateStrategy: identical scoring rules, but the per-stint tyre wear is
computed via the Tyre Wear Model for the given circuit, i.e. looked up by
the catalog code of the circuit being scored. -/
noncomputable def specEvaluateStrategy (circuitCode : String)
    (strategy : Strategy) : ℤ :=
  max 0
    ((100 - ((strategy.stints.length : ℤ) - 1) * 15)
      + (strategy.stints.map (stintScoreDelta circuitCode)).sum)

/-- A generated strategy together with its evaluation score, as assembled
by optimizeStrategy before sorting. -/
structure EvaluatedStrategy where
  strategy : Strategy
  score : ℤ

/-- The optional constraints argument of optimizeStrategy; absent fields
take the destructuring defaults. -/
structure Constraints where
  maxStints : Option ℕ := none
  preferredCompounds : Option (List String) := none
  minStintLength : Option ℤ := none
  maxStintLength : Option ℤ := none

/-- The circuitInfo echo of the optimizeStrategy success payload. -/
structure OptimizeCircuitInfo where
  name : String
  totalLaps : ℤ
  difficulty : String
deriving DecidableEq

/-- Success payload of optimizeStrategy. -/
structure OptimizeData where
  recommended : Option EvaluatedStrategy
  alternatives : List EvaluatedStrategy
  circuitInfo : OptimizeCircuitInfo

/-- Calculations.optimizeStrategy: evaluate every generated candidate, sort
descending by score (Array.prototype.sort with comparator b.score - a.score,
a stable sort, modelled by mergeSort), keep the top five, recommend the
first and offer the rest as alternatives. -/
noncomputable def optimizeStrategy (circuit : String) (totalLaps : ℤ)
    (tyrePoints fuelPoints : ℚ) (constraints : Constraints) :
    CalcResult OptimizeData :=
  match getCircuit circuit with
  | none => .err "Circuito no encontrado" "Strategy optimization"
  | some c =>
    let maxStints := constraints.maxStints.getD 3
    let preferredCompounds := constraints.preferredCompounds.getD ["M", "S"]
    let minStintLength := constraints.minStintLength.getD 5
    let maxStintLength := constraints.maxStintLength.getD (Int.floor ((totalLaps : ℚ) * 0.7))
    let strategies := generateStrategies circuit totalLaps tyrePoints fuelPoints
      maxStints preferredCompounds minStintLength maxStintLength
    let evaluatedStrategies :=
      ((strategies.map fun strategy =>
          EvaluatedStrategy.mk strategy (evaluateStrategy strategy c)).mergeSort
        (fun a b => decide (b.score ≤ a.score))).take 5
    .ok { recommended := evaluatedStrategies.head?,
          alternatives := evaluatedStrategies.drop 1,
          circuitInfo := ⟨c.name, totalLaps, c.difficulty⟩ } "Operación exitosa"

/-- The per-stint risk increment of the analyzeStrategy loop. -/
noncomputable def stintRisk (circuit : String) (stint : Stint) : ℤ :=
  let tyreCalc := calculateTyreWear circuit stint.compound stint.laps 100
  if tyreCalc.remaining < 30 then 2
  else if tyreCalc.remaining < 50 then 1
  else 0

/-- The accumulation loop of analyzeStrategy, returning
(totalTime, totalFuel, riskLevel).  The source adds the 25 second pit cost
for every stint whose index is below length - 1, i.e. for every stint that
is not the last one. -/
noncomputable def analyzeAccum (circuit : String) : List Stint → ℤ × ℝ × ℤ
  | [] => (0, 0, 0)
  | stint :: rest =>
    let fuelCalc := calculateStintFuel circuit 100 stint.laps stint.boost
    let restAcc := analyzeAccum circuit rest
    ( stint.laps * 90 + (if rest.isEmpty then 0 else 25) + restAcc.1,
      (match fuelCalc with
       | .ok d _ => d.stintFuel
       | .err _ _ => 0) + restAcc.2.1,
      stintRisk circuit stint + restAcc.2.2 )

/-- Result of analyzeStrategy. -/
structure StrategyAnalysis where
  estimatedTime : ℤ
  totalFuel : ℝ
  riskLevel : ℤ
  pitStops : ℤ

/-- Calculations.analyzeStrategy: 90 seconds per lap, 25 seconds per pit
stop, stint fuel at 100 fuel points, tyre risk at 100 tyre points. -/
noncomputable def analyzeStrategy (strategy : Strategy) (circuit : String) :
    StrategyAnalysis :=
  let acc := analyzeAccum circuit strategy.stints
  { estimatedTime := acc.1,
    totalFuel := formatNumber acc.2.1 2,
    riskLevel := acc.2.2,
    pitStops := (strategy.stints.length : ℤ) - 1 }

/-! ### Basic facts about rounding, the catalog and positivity -/

theorem round_le_round_of_le {x y : ℝ} (h : x ≤ y) : round x ≤ round y := by
  rw [round_eq, round_eq]
  exact Int.floor_le_floor (by linarith)

theorem formatNumber_mono {x y : ℝ} (d : ℕ) (h : x ≤ y) :
    formatNumber x d ≤ formatNumber y d := by
  unfold formatNumber
  have h10 : (0 : ℝ) < 10 ^ d := by positivity
  gcongr
  exact_mod_cast round_le_round_of_le (mul_le_mul_of_nonneg_right h h10.le)

theorem formatNumber_le (x : ℝ) (d : ℕ) :
    formatNumber x d ≤ x + 1 / (2 * 10 ^ d) := by
  unfold formatNumber
  have h10 : (0 : ℝ) < 10 ^ d := by positivity
  have hb := abs_sub_round (x * 10 ^ d)
  have hround : ((round (x * 10 ^ d) : ℤ) : ℝ) ≤ x * 10 ^ d + 1 / 2 := by
    have := abs_le.mp hb
    linarith [this.1]
  rw [div_le_iff h10]
  calc ((round (x * 10 ^ d) : ℤ) : ℝ) ≤ x * 10 ^ d + 1 / 2 := hround
    _ = (x + 1 / (2 * 10 ^ d)) * 10 ^ d := by field_simp; ring

theorem le_formatNumber (x : ℝ) (d : ℕ) :
    x - 1 / (2 * 10 ^ d) ≤ formatNumber x d := by
  unfold formatNumber
  have h10 : (0 : ℝ) < 10 ^ d := by positivity
  have hb := abs_sub_round (x * 10 ^ d)
  have hround : x * 10 ^ d - 1 / 2 ≤ ((round (x * 10 ^ d) : ℤ) : ℝ) := by
    have := abs_le.mp hb
    linarith [this.2]
  rw [le_div_iff h10]
  calc (x - 1 / (2 * 10 ^ d)) * 10 ^ d = x * 10 ^ d - 1 / 2 := by field_simp; ring
    _ ≤ ((round (x * 10 ^ d) : ℤ) : ℝ) := hround

theorem mem_of_getCircuit {code : String} {c : Circuit}
    (h : getCircuit code = some c) : (code, c) ∈ circuitsData := by
  unfold getCircuit at h
  obtain ⟨l₁, l₂, heq, -⟩ := List.lookup_eq_some_iff.mp h
  rw [heq]
  exact List.mem_append_right _ (List.mem_cons_self _ _)

theorem circuit_fields_pos {code : String} {c : Circuit}
    (h : getCircuit code = some c) :
    0 < c.length ∧ 0 ≤ c.tyreWear ∧ 0 < c.laps := by
  have hall : ∀ p ∈ circuitsData, 0 < p.2.length ∧ 0 ≤ p.2.tyreWear ∧ 0 < p.2.laps := by
    simp only [circuitsData, List.forall_mem_cons, List.forall_mem_nil]
    norm_num
  exact hall _ (mem_of_getCircuit h)

theorem compoundMultiplier_pos (compound : String) :
    (0 : ℚ) < compoundMultiplier compound := by
  unfold compoundMultiplier
  split <;> norm_num

theorem baseWearM_pos {c : Circuit} (hl : 0 < c.length) (hw : 0 ≤ c.tyreWear)
    (tp : ℚ) : 0 < baseWearM c tp := by
  have hmax : (0 : ℝ) < max 1 (tp : ℝ) := lt_of_lt_of_le one_pos (le_max_left _ _)
  have hbase : (0 : ℝ) < max 1 (tp : ℝ) / 1.5 := by
    apply div_pos hmax
    norm_num
  have h2 : (0 : ℝ) < (max 1 (tp : ℝ) / 1.5) ^ (-0.0778 : ℝ) :=
    Real.rpow_pos_of_pos hbase _
  have h4 : (0 : ℝ) < 0.00364 * (c.tyreWear : ℝ) + 0.354 := by
    have hwr : (0 : ℝ) ≤ (c.tyreWear : ℝ) := by exact_mod_cast hw
    nlinarith
  have h6 : (0 : ℝ) < (c.length : ℝ) := by exact_mod_cast hl
  simp only [baseWearM]
  positivity

theorem tyreRemainingRaw_pos (c : Circuit) (compound : String) (laps : ℤ)
    (tp : ℚ) : 0 < tyreRemainingRaw c compound laps tp := by
  unfold tyreRemainingRaw
  positivity

/-- Claim C4: calculateTyreWear, calculateFuel and calculateStintFuel each
fail exactly when the circuit code does not resolve in the catalog or when
a lap-count, tyre-points or fuel-points input is nonpositive; each returns
a discriminated result (the error object with error field set, respectively
the CalcResult err shape) rather than raising. -/
theorem core_functions_fail_iff (circuit compound boost : String) (laps : ℤ)
    (tyrePoints fuelPoints : ℚ) :
    ((calculateTyreWear circuit compound laps tyrePoints).error.isSome
        ↔ getCircuit circuit = none ∨ laps ≤ 0 ∨ tyrePoints ≤ 0)
    ∧ ((calculateTyreWear circuit compound laps tyrePoints).success = some true
        ↔ ¬ (getCircuit circuit = none ∨ laps ≤ 0 ∨ tyrePoints ≤ 0))
    ∧ ((calculateFuel circuit fuelPoints).isErr = true
        ↔ getCircuit circuit = none ∨ fuelPoints ≤ 0)
    ∧ ((calculateStintFuel circuit fuelPoints laps boost).isErr = true
        ↔ getCircuit circuit = none ∨ fuelPoints ≤ 0 ∨ laps ≤ 0) := by
  rcases hC : getCircuit circuit with _ | c
  · simp [calculateTyreWear, calculateFuel, calculateStintFuel, hC, CalcResult.isErr]
  · refine ⟨?_, ?_, ?_, ?_⟩
    · by_cases h : laps ≤ 0 ∨ tyrePoints ≤ 0 <;>
        simp [calculateTyreWear, hC, h, CalcResult.isErr]
    · by_cases h : laps ≤ 0 ∨ tyrePoints ≤ 0 <;>
        simp [calculateTyreWear, hC, h, CalcResult.isErr]
    · by_cases h : fuelPoints ≤ 0 <;>
        simp [calculateFuel, hC, h, CalcResult.isErr]
    · by_cases h : fuelPoints ≤ 0 ∨ laps ≤ 0 <;>
        simp [calculateStintFuel, hC, h, CalcResult.isErr]

/-- Claim C10: every failing calculateTyreWear call (unknown circuit key,
nonpositive laps, or nonpositive tyre points) returns the error object with
baseWear 0, remaining 100 and no success field, so the threshold tests of
the Evaluator and the Comparator see remaining 100: the per-stint score
adjustment is the remaining-above-80 penalty of 5 (plus the unrelated
stint-length bonus) and the per-stint risk increment is 0. -/
theorem calculateTyreWear_failure_mimics_fresh_tyres (circuit compound boost : String)
    (laps k : ℤ) (tyrePoints : ℚ)
    (h : getCircuit circuit = none ∨ laps ≤ 0 ∨ tyrePoints ≤ 0) :
    (calculateTyreWear circuit compound laps tyrePoints).error.isSome = true
    ∧ (calculateTyreWear circuit compound laps tyrePoints).success = none
    ∧ (calculateTyreWear circuit compound laps tyrePoints).baseWear = 0
    ∧ (calculateTyreWear circuit compound laps tyrePoints).remaining = 100
    ∧ ¬ (calculateTyreWear circuit compound laps tyrePoints).remaining < 20
    ∧ ¬ (calculateTyreWear circuit compound laps tyrePoints).remaining < 40
    ∧ (calculateTyreWear circuit compound laps tyrePoints).remaining > 80
    ∧ (getCircuit circuit = none ∨ laps ≤ 0 →
        stintScoreDelta circuit ⟨k, compound, laps, boost⟩
          = -5 + (if 8 ≤ laps ∧ laps ≤ 25 then 5 else 0)
        ∧ stintRisk circuit ⟨k, compound, laps, boost⟩ = 0) := by
  have hres : calculateTyreWear circuit compound laps tyrePoints =
      { success := none, error := some "Circuito no encontrado", baseWear := 0,
        baseWearWithCompound := none, remaining := 100, totalWear := none,
        compound := none, compoundMultiplier := none, lapsCompleted := none }
      ∨ calculateTyreWear circuit compound laps tyrePoints =
      { success := none, error := some "Valores inválidos", baseWear := 0,
        baseWearWithCompound := none, remaining := 100, totalWear := none,
        compound := none, compoundMultiplier := none, lapsCompleted := none } := by
    rcases hC : getCircuit circuit with _ | c
    · exact Or.inl (by simp [calculateTyreWear, hC])
    · have hbad : laps ≤ 0 ∨ tyrePoints ≤ 0 := by
        rcases h with h | h | h
        · rw [hC] at h; cases h
        · exact Or.inl h
        · exact Or.inr h
      exact Or.inr (by simp [calculateTyreWear, hC, hbad])
  have hstint : getCircuit circuit = none ∨ laps ≤ 0 →
      stintScoreDelta circuit ⟨k, compound, laps, boost⟩
        = -5 + (if 8 ≤ laps ∧ laps ≤ 25 then 5 else 0)
      ∧ stintRisk circuit ⟨k, compound, laps, boost⟩ = 0 := by
    intro h100
    have hres100 : (calculateTyreWear circuit compound laps 100).remaining = 100 := by
      rcases hC : getCircuit circuit with _ | c
      · simp [calculateTyreWear, hC]
      · have hl : laps ≤ 0 := by
          rcases h100 with h100 | h100
          · rw [hC] at h100; cases h100
          · exact h100
        simp [calculateTyreWear, hC, hl]
    constructor
    · simp only [stintScoreDelta, hres100]
      norm_num
    · simp only [stintRisk, hres100]
      norm_num
  rcases hres with hres | hres <;>
    exact ⟨by simp [hres], by simp [hres], by simp [hres], by simp [hres],
      by simp [hres]; norm_num, by simp [hres]; norm_num, by simp [hres]; norm_num,
      hstint⟩

/-- Witness for C10 at the concrete failing input of the Evaluator: the
display name France is not a catalog key. -/
theorem calculateTyreWear_failure_mimics_fresh_tyres_witness :
    (calculateTyreWear "France" "M" 24 100).remaining = 100
    ∧ stintRisk "France" ⟨1, "M", 24, "neutral"⟩ = 0 := by
  have h := calculateTyreWear_failure_mimics_fresh_tyres "France" "M" "neutral" 24 1 100
    (Or.inl (by decide))
  exact ⟨h.2.2.2.1, (h.2.2.2.2.2.2.2 (Or.inl (by decide))).2⟩

theorem tyreRemainingRaw_antitone {c : Circuit} (hl : 0 < c.length)
    (hw : 0 ≤ c.tyreWear) (compound : String) (tp : ℚ) {l₁ l₂ : ℤ}
    (h : l₁ ≤ l₂) :
    tyreRemainingRaw c compound l₂ tp ≤ tyreRemainingRaw c compound l₁ tp := by
  unfold tyreRemainingRaw
  have hW := baseWearM_pos hl hw tp
  have hm : (0 : ℝ) < (compoundMultiplier compound : ℝ) := by
    exact_mod_cast compoundMultiplier_pos compound
  have hN : max 1 ((l₁ : ℝ)) ≤ max 1 ((l₂ : ℝ)) := by
    apply max_le_max le_rfl
    exact_mod_cast h
  have hk : (0 : ℝ) < baseWearM c tp * (compoundMultiplier compound : ℝ) / 100 := by
    positivity
  apply mul_le_mul_of_nonneg_left _ (by norm_num : (0 : ℝ) ≤ 100)
  apply Real.exp_le_exp.mpr
  nlinarith [mul_nonneg (sub_nonneg.mpr hN) hk.le]

theorem calculateTyreWear_success (code : String) (c : Circuit)
    (compound : String) (laps : ℤ) (tp : ℚ)
    (hc : getCircuit code = some c) (hl : 1 ≤ laps) (htp : 1 ≤ tp) :
    calculateTyreWear code compound laps tp =
      { success := some true, error := none,
        baseWear := formatNumber (baseWearM c tp) 3,
        baseWearWithCompound :=
          some (formatNumber (baseWearM c tp * (compoundMultiplier compound : ℝ)) 3),
        remaining := formatNumber (tyreRemainingRaw c compound laps tp) 2,
        totalWear := some (formatNumber (100 - tyreRemainingRaw c compound laps tp) 2),
        compound := some (toUpperString compound),
        compoundMultiplier := some (compoundMultiplier compound),
        lapsCompleted := some (max 1 laps) } := by
  have hguard : ¬ (laps ≤ 0 ∨ tp ≤ 0) := by
    push_neg
    exact ⟨by omega, by linarith⟩
  simp [calculateTyreWear, hc, hguard]

/-- Claim C5: for every catalog circuit, every compound and tyre points at
least 1, the remaining value returned by the Tyre Wear Model is
non-increasing as the lap count increases, for lap counts at least 1. -/
theorem tyreWear_remaining_antitone_in_laps (code : String) (c : Circuit)
    (compound : String) (tp : ℚ) (l₁ l₂ : ℤ)
    (hc : getCircuit code = some c) (htp : 1 ≤ tp) (hl₁ : 1 ≤ l₁) (hl : l₁ ≤ l₂) :
    (calculateTyreWear code compound l₂ tp).remaining
      ≤ (calculateTyreWear code compound l₁ tp).remaining := by
  have hpos := circuit_fields_pos hc
  rw [calculateTyreWear_success code c compound l₁ tp hc hl₁ htp,
    calculateTyreWear_success code c compound l₂ tp hc (le_trans hl₁ hl) htp]
  exact formatNumber_mono 2 (tyreRemainingRaw_antitone hpos.1 hpos.2.1 compound tp hl)

/-- Witness for C5 at Monaco, Medium compound, 100 tyre points, 5 and 10
laps. -/
theorem tyreWear_remaining_antitone_in_laps_witness :
    (calculateTyreWear "MON" "M" 10 100).remaining
      ≤ (calculateTyreWear "MON" "M" 5 100).remaining :=
  tyreWear_remaining_antitone_in_laps "MON"
    ⟨"Monaco", 4.015, 29, 20, "MC", "Europe/Monaco", "Very Hard"⟩ "M" 100 5 10
    (by rfl) (by decide) (by decide) (by decide)

/-- Claim C7: on every catalog circuit, for every lap count and tyre points
at least 1, the total wear computed by the Tyre Wear Model for the Hard
compound is strictly smaller than for the SuperSoft compound; the rounded
totalWear fields of the returned results are ordered accordingly. -/
theorem totalWear_hard_lt_supersoft (code : String) (c : Circuit)
    (laps : ℤ) (tp : ℚ)
    (hc : getCircuit code = some c) (hl : 1 ≤ laps) (htp : 1 ≤ tp) :
    (100 - tyreRemainingRaw c "H" laps tp
        < 100 - tyreRemainingRaw c "SS" laps tp)
    ∧ (calculateTyreWear code "H" laps tp).totalWear.getD 0
        ≤ (calculateTyreWear code "SS" laps tp).totalWear.getD 0
    ∧ compoundMultiplier "H" = 0.375 ∧ compoundMultiplier "S" = 0.642
    ∧ compoundMultiplier "M" = 1 ∧ compoundMultiplier "SS" = 2.06
    ∧ ((0.375 : ℚ) < 0.642 ∧ (0.642 : ℚ) < 1 ∧ (1 : ℚ) < 2.06) := by
  have hpos := circuit_fields_pos hc
  have hW := baseWearM_pos hpos.1 hpos.2.1 tp
  have hmH : compoundMultiplier "H" = 0.375 := by rfl
  have hmSS : compoundMultiplier "SS" = 2.06 := by rfl
  have hN : (1 : ℝ) ≤ max 1 ((laps : ℝ)) := le_max_left _ _
  have hraw : tyreRemainingRaw c "SS" laps tp < tyreRemainingRaw c "H" laps tp := by
    unfold tyreRemainingRaw
    rw [hmH, hmSS]
    have hlt : (-1.18 : ℝ) * (baseWearM c tp * ((2.06 : ℚ) : ℝ) / 100) * max 1 ((laps : ℝ))
        < -1.18 * (baseWearM c tp * ((0.375 : ℚ) : ℝ) / 100) * max 1 ((laps : ℝ)) := by
      push_cast
      nlinarith [mul_pos hW (lt_of_lt_of_le one_pos hN)]
    have := Real.exp_lt_exp.mpr hlt
    nlinarith [this]
  refine ⟨by linarith, ?_, by rfl, by rfl,
    by rw [show compoundMultiplier "M" = 1.00 from rfl]; norm_num, by rfl, by norm_num⟩
  rw [calculateTyreWear_success code c "H" laps tp hc hl htp,
    calculateTyreWear_success code c "SS" laps tp hc hl htp]
  simp only [Option.getD_some]
  exact formatNumber_mono 2 (by linarith)

/-- Witness for C7 at Monaco, 10 laps, 100 tyre points. -/
theorem totalWear_hard_lt_supersoft_witness :
    (100 - tyreRemainingRaw ⟨"Monaco", 4.015, 29, 20, "MC", "Europe/Monaco", "Very Hard"⟩ "H" 10 100
        < 100 - tyreRemainingRaw ⟨"Monaco", 4.015, 29, 20, "MC", "Europe/Monaco", "Very Hard"⟩ "SS" 10 100)
    ∧ (calculateTyreWear "MON" "H" 10 100).totalWear.getD 0
        ≤ (calculateTyreWear "MON" "SS" 10 100).totalWear.getD 0 := by
  have h := totalWear_hard_lt_supersoft "MON"
    ⟨"Monaco", 4.015, 29, 20, "MC", "Europe/Monaco", "Very Hard"⟩ 10 100
    (by rfl) (by decide) (by decide)
  exact ⟨h.1, h.2.1⟩

theorem raceFuelRaw_eq_of_le_one (c : Circuit) {fp₁ fp₂ : ℚ}
    (h₁ : fp₁ ≤ 1) (h₂ : fp₂ ≤ 1) : raceFuelRaw c fp₁ = raceFuelRaw c fp₂ := by
  unfold raceFuelRaw
  rw [max_eq_left (by exact_mod_cast h₁), max_eq_left (by exact_mod_cast h₂)]

theorem stintFuelPerLapRaw_eq_of_le_one (c : Circuit) {fp₁ fp₂ : ℚ}
    (h₁ : fp₁ ≤ 1) (h₂ : fp₂ ≤ 1) :
    stintFuelPerLapRaw c fp₁ = stintFuelPerLapRaw c fp₂ := by
  unfold stintFuelPerLapRaw
  rw [max_eq_left (by exact_mod_cast h₁), max_eq_left (by exact_mod_cast h₂)]

/-- Counterexample to C8 as stated: one half and three quarters are both
accepted fuel-point inputs (positive), yet the clamp to 1 makes the fuel
results coincide, so fuel per lap is not strictly decreasing over all
accepted inputs. -/
theorem fuelPerLap_not_strictAnti_below_one :
    (1 / 2 : ℚ) < 3 / 4
    ∧ calculateFuel "MON" (1 / 2) = calculateFuel "MON" (3 / 4)
    ∧ calculateStintFuel "MON" (1 / 2) 10 "neutral"
        = calculateStintFuel "MON" (3 / 4) 10 "neutral" := by
  have hm : getCircuit "MON" =
      some ⟨"Monaco", 4.015, 29, 20, "MC", "Europe/Monaco", "Very Hard"⟩ := by rfl
  have g₁ : ¬ ((1 / 2 : ℚ) ≤ 0) := by norm_num
  have g₂ : ¬ ((3 / 4 : ℚ) ≤ 0) := by norm_num
  have g₃ : ¬ ((1 / 2 : ℚ) ≤ 0 ∨ (10 : ℤ) ≤ 0) := by push_neg; norm_num
  have g₄ : ¬ ((3 / 4 : ℚ) ≤ 0 ∨ (10 : ℤ) ≤ 0) := by push_neg; norm_num
  refine ⟨by norm_num, ?_, ?_⟩
  · simp only [calculateFuel, hm, g₁, g₂, if_false,
      raceFuelRaw_eq_of_le_one _ (by norm_num : (1 / 2 : ℚ) ≤ 1) (by norm_num : (3 / 4 : ℚ) ≤ 1)]
  · simp only [calculateStintFuel, hm, g₃, g₄, if_false,
      stintFuelPerLapRaw_eq_of_le_one _ (by norm_num : (1 / 2 : ℚ) ≤ 1) (by norm_num : (3 / 4 : ℚ) ≤ 1)]

/-- Claim C8 (amended): for a fixed catalog circuit the fuel-per-lap value
computed by both fuel functions is strictly decreasing in fuelPoints on the
region fuelPoints ≥ 1 where the clamp max(1, fuelPoints) is inactive; below
1 the clamp makes it constant (see the counterexample). -/
theorem fuelPerLap_strictAnti_of_one_le (code : String) (c : Circuit)
    (fp₁ fp₂ : ℚ) (hc : getCircuit code = some c) (h1 : 1 ≤ fp₁) (h : fp₁ < fp₂) :
    stintFuelPerLapRaw c fp₂ < stintFuelPerLapRaw c fp₁
    ∧ raceFuelPerLapRaw c fp₂ < raceFuelPerLapRaw c fp₁ := by
  have hpos := circuit_fields_pos hc
  have hlen : (0 : ℝ) < (c.length : ℝ) := by exact_mod_cast hpos.1
  have hlaps : (0 : ℝ) < (c.laps : ℝ) := by exact_mod_cast hpos.2.2
  have hfp₁ : (0 : ℝ) < (fp₁ : ℝ) := by
    have : (1 : ℝ) ≤ (fp₁ : ℝ) := by exact_mod_cast h1
    linarith
  have hmax₁ : max 1 ((fp₁ : ℝ)) = (fp₁ : ℝ) := max_eq_right (by exact_mod_cast h1)
  have hmax₂ : max 1 ((fp₂ : ℝ)) = (fp₂ : ℝ) :=
    max_eq_right (by exact_mod_cast le_trans h1 h.le)
  have hrpow : ((fp₂ : ℝ)) ^ (-0.088463 : ℝ) < ((fp₁ : ℝ)) ^ (-0.088463 : ℝ) :=
    Real.rpow_lt_rpow_of_neg hfp₁ (by exact_mod_cast h) (by norm_num)
  constructor
  · unfold stintFuelPerLapRaw
    rw [hmax₁, hmax₂]
    gcongr
  · unfold raceFuelPerLapRaw raceFuelRaw
    rw [hmax₁, hmax₂]
    gcongr

/-- Witness for the amended C8 at Monaco with fuel points 2 < 3. -/
theorem fuelPerLap_strictAnti_of_one_le_witness :
    stintFuelPerLapRaw ⟨"Monaco", 4.015, 29, 20, "MC", "Europe/Monaco", "Very Hard"⟩ 3
      < stintFuelPerLapRaw ⟨"Monaco", 4.015, 29, 20, "MC", "Europe/Monaco", "Very Hard"⟩ 2
    ∧ raceFuelPerLapRaw ⟨"Monaco", 4.015, 29, 20, "MC", "Europe/Monaco", "Very Hard"⟩ 3
      < raceFuelPerLapRaw ⟨"Monaco", 4.015, 29, 20, "MC", "Europe/Monaco", "Very Hard"⟩ 2 :=
  fuelPerLap_strictAnti_of_one_le "MON"
    ⟨"Monaco", 4.015, 29, 20, "MC", "Europe/Monaco", "Very Hard"⟩ 2 3
    (by rfl) (by decide) (by decide)

theorem calculateStintFuel_success (code : String) (c : Circuit) (fp : ℚ)
    (laps : ℤ) (boost : String)
    (hc : getCircuit code = some c) (hfp : 0 < fp) (hl : 0 < laps) :
    calculateStintFuel code fp laps boost =
      .ok { stintFuel := formatNumber (stintFuelPerLapRaw c fp * (laps : ℝ)
              * ((lookupBoost boost).multiplier : ℝ)) 2,
            fuelPerLap := formatNumber (stintFuelPerLapRaw c fp
              * ((lookupBoost boost).multiplier : ℝ)) 3,
            baseFuelPerLap := formatNumber (stintFuelPerLapRaw c fp) 3,
            boostInfo := ⟨boost, (lookupBoost boost).multiplier, (lookupBoost boost).label⟩,
            fuelSaving := formatNumber
              |(1 - ((lookupBoost boost).multiplier : ℝ)) * stintFuelPerLapRaw c fp * (laps : ℝ)| 2,
            timeImpact := calculateBoostTimeImpact boost laps,
            laps := laps } "Operación exitosa" := by
  have hguard : ¬ (fp ≤ 0 ∨ laps ≤ 0) := by
    push_neg
    exact ⟨by linarith, by omega⟩
  simp [calculateStintFuel, hc, hguard]

theorem timeImpacts_lookup_none {boost : String}
    (h : boostLevels.lookup boost = none) : timeImpacts.lookup boost = none := by
  have h' := List.lookup_eq_none_iff.mp h
  apply List.lookup_eq_none_iff.mpr
  intro p hp
  fin_cases hp
  · simpa using h' ("muy-alto", ⟨1.04, "Muy Alto (+4%)"⟩) (by simp [boostLevels])
  · simpa using h' ("alto", ⟨1.0161, "Alto (+1.61%)"⟩) (by simp [boostLevels])
  · simpa using h' ("neutral", ⟨1, "Neutral"⟩) (by simp [boostLevels])
  · simpa using h' ("bajo", ⟨0.988, "Bajo (-1.2%)"⟩) (by simp [boostLevels])
  · simpa using h' ("muy-bajo", ⟨0.9799, "Muy Bajo (-2.01%)"⟩) (by simp [boostLevels])

/-- Claim C6 (amended): for every known circuit, fuel points and laps at
least 1, calculateStintFuel succeeds with stintFuel equal to
fuelPerLap * lapCount * boostMultiplier from the fixed table; for a boost
key outside the table, every computed field agrees with the neutral call
and only the echoed boostInfo.level differs (it repeats the raw key). -/
theorem stintFuel_formula_and_neutral_default (code : String) (c : Circuit)
    (fp : ℚ) (laps : ℤ) (boost : String)
    (hc : getCircuit code = some c) (hfp : 1 ≤ fp) (hl : 1 ≤ laps) :
    (∃ d, calculateStintFuel code fp laps boost = .ok d "Operación exitosa"
      ∧ d.stintFuel = formatNumber (stintFuelPerLapRaw c fp * (laps : ℝ)
          * ((lookupBoost boost).multiplier : ℝ)) 2)
    ∧ (boostLevels.lookup boost = none →
        ∃ d d', calculateStintFuel code fp laps boost = .ok d "Operación exitosa"
          ∧ calculateStintFuel code fp laps "neutral" = .ok d' "Operación exitosa"
          ∧ d.boostInfo.level = boost
          ∧ d'.boostInfo.level = "neutral"
          ∧ d.stintFuel = d'.stintFuel
          ∧ d.fuelPerLap = d'.fuelPerLap
          ∧ d.baseFuelPerLap = d'.baseFuelPerLap
          ∧ d.boostInfo.multiplier = d'.boostInfo.multiplier
          ∧ d.boostInfo.label = d'.boostInfo.label
          ∧ d.fuelSaving = d'.fuelSaving
          ∧ d.timeImpact.perLap = d'.timeImpact.perLap
          ∧ d.timeImpact.total = d'.timeImpact.total
          ∧ d.timeImpact.direction = d'.timeImpact.direction
          ∧ d.laps = d'.laps)
    ∧ (lookupBoost "muy-alto").multiplier = 1.04
    ∧ (lookupBoost "alto").multiplier = 1.0161
    ∧ (lookupBoost "neutral").multiplier = 1
    ∧ (lookupBoost "bajo").multiplier = 0.988
    ∧ (lookupBoost "muy-bajo").multiplier = 0.9799 := by
  have hfp0 : 0 < fp := by linarith
  have hl0 : 0 < laps := by omega
  have hmain := calculateStintFuel_success code c fp laps boost hc hfp0 hl0
  refine ⟨⟨_, hmain, rfl⟩, ?_, by rfl, by rfl, by rfl, by rfl, by rfl⟩
  intro hnone
  have hneutral := calculateStintFuel_success code c fp laps "neutral" hc hfp0 hl0
  have hboost : lookupBoost boost = ⟨1, "Neutral"⟩ := by
    rw [lookupBoost, hnone]
    rfl
  have hneutrallook : lookupBoost "neutral" = ⟨1, "Neutral"⟩ := by rfl
  have htime : calculateBoostTimeImpact boost laps = calculateBoostTimeImpact "neutral" laps := by
    unfold calculateBoostTimeImpact
    have h0 : boostTimeImpactPerLap boost = 0 := by
      rw [boostTimeImpactPerLap, timeImpacts_lookup_none hnone]
      rfl
    have h0n : boostTimeImpactPerLap "neutral" = 0 := by rfl
    rw [h0, h0n]
  exact ⟨_, _, hmain, hneutral, rfl, rfl,
    by rw [hboost, hneutrallook],
    by rw [hboost, hneutrallook],
    rfl,
    by rw [hboost, hneutrallook],
    by rw [hboost, hneutrallook],
    by rw [hboost, hneutrallook],
    by rw [htime],
    by rw [htime],
    by rw [htime],
    rfl⟩

/-- Witness for the amended C6: Monaco, 100 fuel points, 10 laps, the
unknown boost key turbo. -/
theorem stintFuel_formula_and_neutral_default_witness :
    (∃ d, calculateStintFuel "MON" 100 10 "turbo" = .ok d "Operación exitosa"
      ∧ d.stintFuel = formatNumber (stintFuelPerLapRaw
          ⟨"Monaco", 4.015, 29, 20, "MC", "Europe/Monaco", "Very Hard"⟩ 100 * (10 : ℝ)
          * ((lookupBoost "turbo").multiplier : ℝ)) 2)
    ∧ (lookupBoost "muy-alto").multiplier = 1.04 := by
  have h := stintFuel_formula_and_neutral_default "MON"
    ⟨"Monaco", 4.015, 29, 20, "MC", "Europe/Monaco", "Very Hard"⟩ 100 10 "turbo"
    (by rfl) (by decide) (by decide)
  exact ⟨h.1, h.2.2.1⟩

/-- Counterexample to C6 as stated: with an unknown boost key the full
result is not identical to the neutral call, because boostInfo.level echoes
the raw key. -/
theorem stintFuel_unknown_boost_not_identical :
    calculateStintFuel "MON" 100 10 "turbo"
      ≠ calculateStintFuel "MON" 100 10 "neutral" := by
  rw [calculateStintFuel_success "MON"
      ⟨"Monaco", 4.015, 29, 20, "MC", "Europe/Monaco", "Very Hard"⟩ 100 10 "turbo"
      (by rfl) (by decide) (by decide),
    calculateStintFuel_success "MON"
      ⟨"Monaco", 4.015, 29, 20, "MC", "Europe/Monaco", "Very Hard"⟩ 100 10 "neutral"
      (by rfl) (by decide) (by decide)]
  intro h
  simp only [CalcResult.ok.injEq, StintFuelData.mk.injEq, BoostInfo.mk.injEq] at h
  exact absurd h.1.2.2.2.1.1 (by decide)

theorem analyzeAccum_time (circuit : String) :
    ∀ l : List Stint, l ≠ [] →
      (analyzeAccum circuit l).1
        = 90 * (l.map (fun st => st.laps)).sum + 25 * ((l.length : ℤ) - 1) := by
  intro l
  induction l with
  | nil => intro h; cases h rfl
  | cons x rest ih =>
    intro _
    cases rest with
    | nil =>
      simp [analyzeAccum]
      ring
    | cons y rest' =>
      have hrec := ih (by simp)
      simp only [analyzeAccum, List.isEmpty_cons, List.map_cons, List.sum_cons,
        List.length_cons] at hrec ⊢
      rw [hrec]
      push_cast
      ring

theorem analyzeAccum_risk (circuit : String) :
    ∀ l : List Stint,
      (analyzeAccum circuit l).2.2 = (l.map (stintRisk circuit)).sum := by
  intro l
  induction l with
  | nil => simp [analyzeAccum]
  | cons x rest ih =>
    simp only [analyzeAccum, List.map_cons, List.sum_cons]
    rw [ih]

/-- Claim C9: for a strategy with at least one stint on a known circuit,
analyzeStrategy reports 90 seconds per lap plus 25 seconds per pit stop,
stint count minus one pit stops, and the per-stint risk sum of the tyre
model at 100 tyre points (2 below 30 remaining, otherwise 1 below 50). -/
theorem analyzeStrategy_spec (s : Strategy) (code : String) (c : Circuit)
    (hc : getCircuit code = some c) (hne : 1 ≤ s.stints.length) :
    (analyzeStrategy s code).estimatedTime
        = 90 * (s.stints.map (fun st => st.laps)).sum + 25 * ((s.stints.length : ℤ) - 1)
    ∧ (analyzeStrategy s code).pitStops = (s.stints.length : ℤ) - 1
    ∧ (analyzeStrategy s code).riskLevel = (s.stints.map (stintRisk code)).sum := by
  have hne' : s.stints ≠ [] := by
    cases h : s.stints
    · rw [h] at hne; simp at hne
    · simp
  exact ⟨analyzeAccum_time code s.stints hne', rfl, analyzeAccum_risk code s.stints⟩

/-- Witness for C9: a one-stint strategy over the 29 laps of Monaco. -/
theorem analyzeStrategy_spec_witness :
    (analyzeStrategy ⟨[⟨1, "M", 29, "neutral"⟩], 0, "x"⟩ "MON").estimatedTime
        = 90 * (([⟨1, "M", 29, "neutral"⟩] : List Stint).map (fun st => st.laps)).sum
          + 25 * ((([⟨1, "M", 29, "neutral"⟩] : List Stint).length : ℤ) - 1)
    ∧ (analyzeStrategy ⟨[⟨1, "M", 29, "neutral"⟩], 0, "x"⟩ "MON").pitStops
        = (([⟨1, "M", 29, "neutral"⟩] : List Stint).length : ℤ) - 1
    ∧ (analyzeStrategy ⟨[⟨1, "M", 29, "neutral"⟩], 0, "x"⟩ "MON").riskLevel
        = (([⟨1, "M", 29, "neutral"⟩] : List Stint).map (stintRisk "MON")).sum :=
  analyzeStrategy_spec ⟨[⟨1, "M", 29, "neutral"⟩], 0, "x"⟩ "MON"
    ⟨"Monaco", 4.015, 29, 20, "MC", "Europe/Monaco", "Very Hard"⟩
    (by rfl) (by decide)

theorem buildStintsAux_length (numStints : ℕ) (p : String) :
    ∀ (k i : ℕ) (r : ℤ), (buildStintsAux numStints p k i r).length = k := by
  intro k
  induction k with
  | zero => intro i r; rfl
  | succ k ih =>
    intro i r
    simp only [buildStintsAux, List.length_cons, ih]

theorem buildStints_length (n : ℕ) (p : String) (t : ℤ) :
    (buildStints n p t).length = n :=
  buildStintsAux_length n p n 0 t

theorem foldl_add_laps (l : List Stint) :
    ∀ a : ℤ, l.foldl (fun sum stint => sum + stint.laps) a
      = a + (l.map (fun st => st.laps)).sum := by
  induction l with
  | nil => intro a; simp
  | cons x rest ih =>
    intro a
    simp only [List.foldl_cons, List.map_cons, List.sum_cons, ih]
    ring

theorem validateStrategy_eq_true {s : Strategy} {totalLaps : ℤ}
    (h : validateStrategy s totalLaps = true) :
    (s.stints.map (fun st => st.laps)).sum = totalLaps
      ∧ ∀ st ∈ s.stints, 0 < st.laps := by
  unfold validateStrategy at h
  rw [Bool.and_eq_true] at h
  constructor
  · have h1 := of_decide_eq_true (by simpa using h.1)
    rw [foldl_add_laps] at h1
    simpa using h1
  · intro st hst
    have h2 := List.all_eq_true.mp h.2 st hst
    exact of_decide_eq_true h2

/-- Claim C2: every strategy returned by generateStrategies has stint laps
summing exactly to totalLaps with every stint positive, and is only
produced for a stint count whose even average floor(totalLaps / stintCount)
lies inside [minLength, maxLength]. -/
theorem generateStrategies_valid (circuit : String) (totalLaps : ℤ)
    (tyrePoints fuelPoints : ℚ) (maxStints : ℕ) (compounds : List String)
    (minLength maxLength : ℤ) (hpos : 1 ≤ totalLaps) :
    ∀ s ∈ generateStrategies circuit totalLaps tyrePoints fuelPoints
        maxStints compounds minLength maxLength,
      ((s.stints.map (fun st => st.laps)).sum = totalLaps
        ∧ ∀ st ∈ s.stints, 0 < st.laps)
      ∧ minLength ≤ Int.ediv totalLaps (s.stints.length : ℤ)
      ∧ Int.ediv totalLaps (s.stints.length : ℤ) ≤ maxLength := by
  intro s hs
  unfold generateStrategies at hs
  rw [List.mem_flatMap] at hs
  obtain ⟨numStints, hn, hmem⟩ := hs
  by_cases hcond : minLength ≤ Int.ediv totalLaps (numStints : ℤ)
      ∧ Int.ediv totalLaps (numStints : ℤ) ≤ maxLength
  · rw [if_pos hcond] at hmem
    rw [List.mem_filterMap] at hmem
    obtain ⟨compound, hcomp, hsome⟩ := hmem
    by_cases hval : validateStrategy
        (createBalancedStrategy circuit totalLaps numStints compound tyrePoints fuelPoints)
        totalLaps
    · rw [if_pos hval] at hsome
      obtain rfl := Option.some.inj hsome
      have hlen : (createBalancedStrategy circuit totalLaps numStints compound
          tyrePoints fuelPoints).stints.length = numStints := by
        simp [createBalancedStrategy, buildStints_length]
      refine ⟨validateStrategy_eq_true hval, ?_, ?_⟩ <;> rw [hlen]
      · exact hcond.1
      · exact hcond.2
    · rw [if_neg hval] at hsome
      cases hsome
  · rw [if_neg hcond] at hmem
    cases hmem

/-- Witness for C2: even an unknown circuit string exercises the generator;
a single ten-lap stint on compound M is generated and validated. -/
theorem generateStrategies_valid_witness :
    (((createBalancedStrategy "X" 10 1 "M" 100 100).stints.map (fun st => st.laps)).sum = 10
      ∧ ∀ st ∈ (createBalancedStrategy "X" 10 1 "M" 100 100).stints, 0 < st.laps)
    ∧ (5 : ℤ) ≤ Int.ediv 10 (((createBalancedStrategy "X" 10 1 "M" 100 100).stints.length : ℤ))
    ∧ Int.ediv 10 (((createBalancedStrategy "X" 10 1 "M" 100 100).stints.length : ℤ)) ≤ 16 := by
  have hmem : createBalancedStrategy "X" 10 1 "M" 100 100
      ∈ generateStrategies "X" 10 100 100 1 ["M"] 5 16 := by
    unfold generateStrategies
    rw [show List.range' 1 1 = [1] from rfl]
    simp only [List.flatMap_cons, List.flatMap_nil, List.append_nil]
    rw [if_pos (by decide)]
    simp only [List.filterMap_cons, List.filterMap_nil]
    rw [if_pos (by rfl)]
    exact List.mem_singleton.mpr rfl
  exact generateStrategies_valid "X" 10 100 100 1 ["M"] 5 16 (by decide) _ hmem

theorem scoreDescBool_trans :
    ∀ a b c' : EvaluatedStrategy,
      decide (b.score ≤ a.score) = true → decide (c'.score ≤ b.score) = true →
      decide (c'.score ≤ a.score) = true := by
  intro a b c' h1 h2
  rw [decide_eq_true_eq] at h1 h2 ⊢
  exact le_trans h2 h1

theorem scoreDescBool_total :
    ∀ a b : EvaluatedStrategy,
      (decide (b.score ≤ a.score) || decide (a.score ≤ b.score)) = true := by
  intro a b
  simpa using le_total b.score a.score

theorem sortedTake_head_spec (E : List EvaluatedStrategy) (n : ℕ)
    (r : EvaluatedStrategy)
    (h : ((E.mergeSort fun a b => decide (b.score ≤ a.score)).take (n + 1)).head?
      = some r) :
    r ∈ E
    ∧ (∀ a ∈ ((E.mergeSort fun a b => decide (b.score ≤ a.score)).take (n + 1)).drop 1,
        a.score ≤ r.score)
    ∧ ∀ e ∈ E, e.score ≤ r.score := by
  have hsorted : (E.mergeSort fun a b => decide (b.score ≤ a.score)).Pairwise
      (fun a b => b.score ≤ a.score) := by
    have hp := List.sorted_mergeSort scoreDescBool_trans scoreDescBool_total E
    exact hp.imp (fun hab => of_decide_eq_true hab)
  rcases hS : E.mergeSort fun a b => decide (b.score ≤ a.score) with _ | ⟨a, t⟩
  · rw [hS] at h
    cases h
  · rw [hS] at h hsorted
    rw [List.take_succ_cons, List.head?_cons, Option.some.injEq] at h
    rw [List.pairwise_cons] at hsorted
    refine ⟨?_, ?_, ?_⟩
    · rw [← h]
      apply List.mem_mergeSort.mp
      rw [hS]
      exact List.mem_cons_self _ _
    · intro x hx
      rw [List.take_succ_cons, List.drop_succ_cons, List.drop_zero] at hx
      rw [← h]
      exact hsorted.1 x (List.mem_of_mem_take hx)
    · intro e he
      have hmem : e ∈ a :: t := by
        rw [← hS]
        exact List.mem_mergeSort.mpr he
      rw [← h]
      rcases List.mem_cons.mp hmem with rfl | hmem'
      · exact le_refl _
      · exact hsorted.1 e hmem' 

/-- Claim C3: optimizeStrategy fails with the unknown-circuit error when
the code is not in the catalog; otherwise it succeeds with at most four
alternatives, its recommended entry (when present) scoring at least every
alternative and every generated candidate, and an empty recommendation
exactly when the generator produced no candidate. -/
theorem optimizeStrategy_spec (circuit : String) (totalLaps : ℤ)
    (tyrePoints fuelPoints : ℚ) (constraints : Constraints) :
    (getCircuit circuit = none →
      optimizeStrategy circuit totalLaps tyrePoints fuelPoints constraints
        = .err "Circuito no encontrado" "Strategy optimization")
    ∧ ∀ c, getCircuit circuit = some c →
        ∃ d, optimizeStrategy circuit totalLaps tyrePoints fuelPoints constraints
            = .ok d "Operación exitosa"
          ∧ d.alternatives.length ≤ 4
          ∧ (∀ r, d.recommended = some r →
              (r.strategy ∈ generateStrategies circuit totalLaps tyrePoints fuelPoints
                  (constraints.maxStints.getD 3)
                  (constraints.preferredCompounds.getD ["M", "S"])
                  (constraints.minStintLength.getD 5)
                  (constraints.maxStintLength.getD (Int.floor ((totalLaps : ℚ) * 0.7)))
                ∧ r.score = evaluateStrategy r.strategy c)
              ∧ (∀ a ∈ d.alternatives, a.score ≤ r.score)
              ∧ ∀ s ∈ generateStrategies circuit totalLaps tyrePoints fuelPoints
                  (constraints.maxStints.getD 3)
                  (constraints.preferredCompounds.getD ["M", "S"])
                  (constraints.minStintLength.getD 5)
                  (constraints.maxStintLength.getD (Int.floor ((totalLaps : ℚ) * 0.7))),
                evaluateStrategy s c ≤ r.score)
          ∧ (generateStrategies circuit totalLaps tyrePoints fuelPoints
                (constraints.maxStints.getD 3)
                (constraints.preferredCompounds.getD ["M", "S"])
                (constraints.minStintLength.getD 5)
                (constraints.maxStintLength.getD (Int.floor ((totalLaps : ℚ) * 0.7))) = []
              → d.recommended = none) := by
  constructor
  · intro h
    simp [optimizeStrategy, h]
  · intro c hc
    refine ⟨_, by simp only [optimizeStrategy, hc]; rfl, ?_, ?_, ?_⟩
    · simp only [List.length_drop, List.length_take]
      omega
    · intro r hr
      have h5 : (5 : ℕ) = 4 + 1 := rfl
      rw [h5] at hr
      have hspec := sortedTake_head_spec _ 4 r hr
      refine ⟨?_, ?_, ?_⟩
      · obtain ⟨s, hs, heq⟩ := List.mem_map.mp hspec.1
        rw [← heq]
        exact ⟨hs, rfl⟩
      · intro a ha
        rw [h5] at ha
        exact hspec.2.1 a ha
      · intro s hs
        exact hspec.2.2 ⟨s, evaluateStrategy s c⟩ (List.mem_map_of_mem _ hs)
    · intro hempty
      simp [hempty]

/-- Witness for C3: an unknown code fails, and Monaco with the default
constraints succeeds with at most four alternatives. -/
theorem optimizeStrategy_spec_witness :
    optimizeStrategy "ZZZ" 10 100 100 ⟨none, none, none, none⟩
      = .err "Circuito no encontrado" "Strategy optimization"
    ∧ ∃ d, optimizeStrategy "MON" 29 100 100 ⟨none, none, none, none⟩
        = .ok d "Operación exitosa" ∧ d.alternatives.length ≤ 4 := by
  constructor
  · exact (optimizeStrategy_spec "ZZZ" 10 100 100 ⟨none, none, none, none⟩).1 (by decide)
  · obtain ⟨d, hd, hlen, -, -⟩ :=
      (optimizeStrategy_spec "MON" 29 100 100 ⟨none, none, none, none⟩).2
        ⟨"Monaco", 4.015, 29, 20, "MC", "Europe/Monaco", "Very Hard"⟩ (by rfl)
    exact ⟨d, hd, hlen⟩

theorem rpow_hundred_div_bound :
    (0.62 : ℝ) ≤ ((100 : ℝ) / 1.5) ^ (-0.0778 : ℝ) := by
  have hpos : (0 : ℝ) < 100 / 1.5 := by norm_num
  rw [Real.rpow_def_of_pos hpos]
  have hlog : Real.log (100 / 1.5) ≤ 4.86 := by
    have h1 : Real.log (100 / 1.5) ≤ Real.log 128 :=
      Real.log_le_log (by norm_num) (by norm_num)
    have h2 : Real.log 128 = 7 * Real.log 2 := by
      rw [show (128 : ℝ) = 2 ^ 7 by norm_num, Real.log_pow]
      norm_num
    have h3 := Real.log_two_lt_d9
    nlinarith
  have hexp : (-0.38 : ℝ) ≤ Real.log (100 / 1.5) * (-0.0778) := by nlinarith
  calc (0.62 : ℝ) ≤ -0.38 + 1 := by norm_num
    _ ≤ Real.log (100 / 1.5) * (-0.0778) + 1 := by linarith
    _ ≤ Real.exp (Real.log (100 / 1.5) * (-0.0778)) := Real.add_one_le_exp _

theorem turkey_baseWearM_bound :
    (6.4 : ℝ) ≤ baseWearM ⟨"Turkey", 5.162, 27, 90, "TR", "Europe/Istanbul", "Very Hard"⟩ 100 := by
  simp only [baseWearM]
  push_cast
  rw [show max (1 : ℝ) (100 : ℝ) = 100 from max_eq_right (by norm_num)]
  nlinarith [rpow_hundred_div_bound]

theorem turkey_ss_remaining_lt_20 :
    (calculateTyreWear "TUR" "SS" 27 100).remaining < 20 := by
  have htur : getCircuit "TUR" =
      some ⟨"Turkey", 5.162, 27, 90, "TR", "Europe/Istanbul", "Very Hard"⟩ := by rfl
  rw [calculateTyreWear_success "TUR" _ "SS" 27 100 htur (by decide) (by decide)]
  have hraw : tyreRemainingRaw ⟨"Turkey", 5.162, 27, 90, "TR", "Europe/Istanbul", "Very Hard"⟩
      "SS" 27 100 ≤ 15 := by
    unfold tyreRemainingRaw
    rw [show compoundMultiplier "SS" = 2.06 from rfl]
    have hN : max (1 : ℝ) (((27 : ℤ) : ℝ)) = 27 := by
      push_cast
      exact max_eq_right (by norm_num)
    rw [hN]
    have hW := turkey_baseWearM_bound
    have hexp : (-1.18 : ℝ) * (baseWearM ⟨"Turkey", 5.162, 27, 90, "TR", "Europe/Istanbul", "Very Hard"⟩ 100
        * ((2.06 : ℚ) : ℝ) / 100) * 27 ≤ -2 := by
      push_cast
      nlinarith
    have hmono : Real.exp ((-1.18 : ℝ) * (baseWearM ⟨"Turkey", 5.162, 27, 90, "TR", "Europe/Istanbul", "Very Hard"⟩ 100
        * ((2.06 : ℚ) : ℝ) / 100) * 27) ≤ Real.exp (-2) := Real.exp_le_exp.mpr hexp
    have hexp2 : Real.exp (-2 : ℝ) < 1 / 7 := by
      have h1 := Real.exp_one_gt_d9
      have h2 : Real.exp (2 : ℝ) = Real.exp 1 * Real.exp 1 := by
        rw [← Real.exp_add]
        norm_num
      have h3 : (7 : ℝ) < Real.exp 2 := by nlinarith
      rw [show (-2 : ℝ) = -(2 : ℝ) by norm_num, Real.exp_neg]
      calc (Real.exp 2)⁻¹ < 7⁻¹ := inv_lt_inv_of_lt (by norm_num) h3
        _ = 1 / 7 := by norm_num
    nlinarith
  calc formatNumber (tyreRemainingRaw ⟨"Turkey", 5.162, 27, 90, "TR", "Europe/Istanbul", "Very Hard"⟩
        "SS" 27 100) 2
      ≤ tyreRemainingRaw ⟨"Turkey", 5.162, 27, 90, "TR", "Europe/Istanbul", "Very Hard"⟩
        "SS" 27 100 + 1 / (2 * 10 ^ 2) := formatNumber_le _ 2
    _ ≤ 15 + 1 / 200 := by linarith [hraw]
    _ < 20 := by norm_num

/-- Claim C1 (code bug): the Evaluator passes the display name of the
circuit, not its catalog code, to the Tyre Wear Model.  On Turkey, a single
SuperSoft stint of 27 laps scores 95 in the code (the failed name lookup
reports remaining 100, triggering only the above-80 penalty of 5), while
the scoring rule of the specification, with tyre wear computed for the
circuit, gives 70 (remaining is below 20, penalty 30). -/
theorem evaluateStrategy_name_lookup_bug :
    evaluateStrategy ⟨[⟨1, "SS", 27, "neutral"⟩], 0, "x"⟩
        ⟨"Turkey", 5.162, 27, 90, "TR", "Europe/Istanbul", "Very Hard"⟩ = 95
    ∧ specEvaluateStrategy "TUR" ⟨[⟨1, "SS", 27, "neutral"⟩], 0, "x"⟩ = 70 := by
  constructor
  · have hT : getCircuit "Turkey" = none := by decide
    have hdelta : stintScoreDelta "Turkey" ⟨1, "SS", 27, "neutral"⟩ = -5 := by
      simp only [stintScoreDelta, calculateTyreWear, hT]
      norm_num
    simp only [evaluateStrategy, List.map_cons, List.map_nil, List.sum_cons,
      List.sum_nil, List.length_cons, List.length_nil, hdelta]
    decide
  · have hdelta : stintScoreDelta "TUR" ⟨1, "SS", 27, "neutral"⟩ = -30 := by
      simp only [stintScoreDelta]
      rw [if_pos turkey_ss_remaining_lt_20,
        if_neg (by decide : ¬ ((8 : ℤ) ≤ 27 ∧ (27 : ℤ) ≤ 25))]
      norm_num
    simp only [specEvaluateStrategy, List.map_cons, List.map_nil, List.sum_cons,
      List.sum_nil, List.length_cons, List.length_nil, hdelta]
    decide
